import Mathlib

/-!
Verification development for the google-workspace-agent repository.

Shallow embedding of the two core subsystems:
* the capability registry / task dispatcher (`src/a2a/handler.ts` and its
  variant copy, `src/tools/google-docs.ts`), and
* the credential lifecycle manager / client factory
  (`src/google-auth.ts`, `src/google-factory.ts`).

Network-facing collaborators (the Google API client `GoogleWorkspaceClient`,
the language-model `Agent`, the OAuth token exchange and user-info fetch) are
modeled as oracles: records of pure functions supplied by the environment,
returning `Except String` results the way the corresponding promises either
resolve or reject.  Wall-clock time is modeled relative to dispatch entry
(`Date.now()` at dispatch is time 0); the settlement time of a handler promise
is an environment parameter (`AsyncExec`).
-/

/-! ## JavaScript-semantics helpers -/

/-- JS `a || d` for a possibly-undefined string `a`: the default is taken when
`a` is `undefined` (here `none`) or the empty string (falsy). -/
def jsOrStr (a : Option String) (d : String) : String :=
  match a with
  | none => d
  | some s => if s = "" then d else s

/-- JS `a || d` for a possibly-undefined number `a`: the default is taken when
`a` is `undefined` or `0` (falsy); every other value, negative ones
included, is kept. -/
def jsOrInt (a : Option Int) (d : Int) : Int :=
  match a with
  | none => d
  | some t => if t = 0 then d else t

/-- JS template interpolation of a possibly-undefined string. -/
def jsStr (a : Option String) : String :=
  match a with
  | none => "undefined"
  | some s => s

/-- JS `String.prototype.includes` (substring containment). -/
def strIncludes (s sub : String) : Bool :=
  decide (sub.data <:+: s.data)

/-- JS `String.prototype.startsWith`. -/
def strStartsWith (s p : String) : Bool :=
  p.data.isPrefixOf s.data

/-- JS `String.prototype.toLowerCase` (the ASCII mapping, which is all the
pattern matcher's keywords need). -/
def strToLower (s : String) : String :=
  String.mk (s.data.map Char.toLower)

/-! ## Data model of the dispatcher (`src/a2a/handler.ts`) -/

structure DocumentInfo where
  id : String
  title : String
  url : String
  createdTime : Option String := none
  modifiedTime : Option String := none
deriving DecidableEq, Repr

structure DocumentContent where
  id : String
  title : String
  content : String
  url : String
deriving DecidableEq, Repr

structure DriveFile where
  id : String
  name : String
  mimeType : String
  url : String
  createdTime : Option String := none
  modifiedTime : Option String := none
deriving DecidableEq, Repr

inductive FileType where
  | document
  | spreadsheet
  | presentation
  | any
deriving DecidableEq, Repr

/-- Oracle for the stateless Google API wrapper (`src/google-client.ts`): each
method is a network round trip whose outcome — a typed result or a raised
failure — is supplied by the environment.  Arguments that can be `undefined`
in the source (unchecked `as` casts in the capability handlers) are `Option`. -/
structure GoogleWorkspaceClient where
  createDocument : Option String → Option String → Option String → Except String DocumentInfo
  readDocument : Option String → Except String DocumentContent
  updateDocument : Option String → Option String → Except String DocumentInfo
  appendToDocument : Option String → Option String → Except String DocumentInfo
  listDocuments : Option String → Option String → Int → Except String (List DocumentInfo)
  searchDrive : Option String → FileType → Int → Except String (List DriveFile)

/-- The data payloads built by the tools layer (`src/tools/google-docs.ts`). -/
inductive ToolData where
  | createData (message : String) (document : DocumentInfo)
  | readData (document : DocumentContent) (preview : String)
  | updateData (message : String) (document : DocumentInfo) (content_length : Nat)
  | appendData (message : String) (document : DocumentInfo) (appended_length : Nat)
  | listData (count : Nat) (documents : List DocumentInfo)
  | searchData (count : Nat) (files : List DriveFile)
deriving DecidableEq, Repr

structure ToolResult where
  success : Bool
  data : Option ToolData := none
  error : Option String := none
deriving DecidableEq, Repr

/-! ## GoogleDocsTools (`src/tools/google-docs.ts`)

Each method wraps one client call in `try/catch` and always resolves with a
`ToolResult`; a raised client failure becomes `success = false`. -/

structure GoogleDocsTools where
  client : GoogleWorkspaceClient

def GoogleDocsTools.createDocument (t : GoogleDocsTools)
    (title content folder_id : Option String) : ToolResult :=
  match t.client.createDocument title content folder_id with
  | .ok doc =>
    { success := true
      data := some (.createData ("Document \"" ++ jsStr title ++ "\" created successfully") doc) }
  | .error e => { success := false, error := some ("Failed to create document: " ++ e) }

def GoogleDocsTools.readDocument (t : GoogleDocsTools)
    (document_id : Option String) : ToolResult :=
  match t.client.readDocument document_id with
  | .ok doc =>
    { success := true
      data := some (.readData doc
        (if doc.content.length > 500 then doc.content.take 500 ++ "..." else doc.content)) }
  | .error e => { success := false, error := some ("Failed to read document: " ++ e) }

/-- Note on fidelity: `content_length` is modeled as `(content.getD "").length`.
In the source, `params.content.length` on an undefined `content` raises a
TypeError inside the guarded region, which the catch turns into a
`success:false` result with an engine-dependent message; that corner
(absent content together with a succeeding client call) is modeled here as
length 0 instead of a failure, and no theorem depends on it. -/
def GoogleDocsTools.updateDocument (t : GoogleDocsTools)
    (document_id content : Option String) : ToolResult :=
  match t.client.updateDocument document_id content with
  | .ok doc =>
    { success := true
      data := some (.updateData ("Document \"" ++ doc.title ++ "\" updated successfully") doc
        (content.getD "").length) }
  | .error e => { success := false, error := some ("Failed to update document: " ++ e) }

/-- Note on fidelity: as for `updateDocument`, `appended_length` is modeled
as `(content.getD "").length`; the TypeError-on-undefined-content corner of
the source is not modeled and no theorem depends on it. -/
def GoogleDocsTools.appendToDocument (t : GoogleDocsTools)
    (document_id content : Option String) : ToolResult :=
  match t.client.appendToDocument document_id content with
  | .ok doc =>
    { success := true
      data := some (.appendData ("Content appended to \"" ++ doc.title ++ "\" successfully") doc
        (content.getD "").length) }
  | .error e => { success := false, error := some ("Failed to append to document: " ++ e) }

def GoogleDocsTools.listDocuments (t : GoogleDocsTools)
    (folder_id query : Option String) (limit : Option Int) : ToolResult :=
  match t.client.listDocuments folder_id query (jsOrInt limit 20) with
  | .ok documents => { success := true, data := some (.listData documents.length documents) }
  | .error e => { success := false, error := some ("Failed to list documents: " ++ e) }

def GoogleDocsTools.searchDrive (t : GoogleDocsTools)
    (query : Option String) (file_type : Option FileType) (limit : Option Int) : ToolResult :=
  match t.client.searchDrive query (file_type.getD .any) (jsOrInt limit 20) with
  | .ok files => { success := true, data := some (.searchData files.length files) }
  | .error e => { success := false, error := some ("Failed to search Drive: " ++ e) }

/-! ## The two regular expressions of the conversational fallback

`/(?:called|named|titled)\s+"([^"]+)"/i` and
`/(?:search|find)\s+(?:for\s+)?["']?([^"']+)["']?/i`, matched against the
already lower-cased message.  The matchers below implement the JS backtracking
search: leftmost starting position, alternatives in order, greedy
quantifiers with backtracking where it can matter. -/

/-- JS `\s` restricted to its ASCII members (the ones that can occur here). -/
def jsWhitespace (c : Char) : Bool :=
  c = ' ' || c = '\t' || c = '\n' || c = '\r' || c = '\x0b' || c = '\x0c'

/-- Tail of the title pattern after the keyword: `\s+"([^"]+)"`.  Maximal munch
is complete here: `\s`, `[^"]` and `"` are pairwise disjoint at every
boundary, so the greedy quantifiers never need to give characters back. -/
def matchTitleTail (s : List Char) : Option (List Char) :=
  let ws := s.takeWhile jsWhitespace
  if ws.isEmpty then none
  else
    match s.drop ws.length with
    | '"' :: rest =>
      let cap := rest.takeWhile (fun c => c ≠ '"')
      if cap.isEmpty then none
      else
        match rest.dropWhile (fun c => c ≠ '"') with
        | '"' :: _ => some cap
        | _ => none
    | _ => none

/-- Try the full title pattern anchored at this position; the alternatives
`called`, `named`, `titled` start with pairwise distinct characters, so at
most one can apply. -/
def titleCapAt (s : List Char) : Option (List Char) :=
  if "called".data.isPrefixOf s then matchTitleTail (s.drop 6)
  else if "named".data.isPrefixOf s then matchTitleTail (s.drop 5)
  else if "titled".data.isPrefixOf s then matchTitleTail (s.drop 6)
  else none

/-- Leftmost match of the title pattern (JS `String.prototype.match`),
returning the capture group. -/
def findTitleCap : List Char → Option (List Char)
  | [] => none
  | c :: rest =>
    match titleCapAt (c :: rest) with
    | some cap => some cap
    | none => findTitleCap rest

/-- The character class `["']`. -/
def isQuoteCh (c : Char) : Bool :=
  c = '"' || c = '\''

/-- Capture `([^"']+)` greedy, followed by the unconstraining optional `["']?`:
the capture is the maximal nonempty run of non-quote characters. -/
def qcap (s : List Char) : Option (List Char) :=
  let cap := s.takeWhile (fun c => !(isQuoteCh c))
  if cap.isEmpty then none else some cap

/-- Pattern `["']?([^"']+)["']?` greedy: consume one leading quote if present (when
the head is a quote, declining to consume it makes `[^"']+` fail at that same
quote, so no backtracking case is lost). -/
def qtail (s : List Char) : Option (List Char) :=
  match s with
  | [] => none
  | c :: rest => if isQuoteCh c then qcap rest else qcap s

/-- Pattern `\s+` then the continuation `k`, greedy over the run length with full
backtracking: amounts are tried from the maximal munch down to one. -/
def wsThenAux (k : List Char → Option (List Char)) (s : List Char) :
    Nat → Option (List Char)
  | 0 => none
  | n + 1 =>
    match k (s.drop (n + 1)) with
    | some r => some r
    | none => wsThenAux k s n

def wsThen (k : List Char → Option (List Char)) (s : List Char) : Option (List Char) :=
  wsThenAux k s (s.takeWhile jsWhitespace).length

/-- Pattern `(?:for\s+)?` greedy, then `["']?([^"']+)["']?`. -/
def forTail (s : List Char) : Option (List Char) :=
  if "for".data.isPrefixOf s then
    match wsThen qtail (s.drop 3) with
    | some r => some r
    | none => qtail s
  else qtail s

/-- Try the full query pattern anchored at this position; `search` and `find`
start with distinct characters. -/
def queryCapAt (s : List Char) : Option (List Char) :=
  if "search".data.isPrefixOf s then wsThen forTail (s.drop 6)
  else if "find".data.isPrefixOf s then wsThen forTail (s.drop 4)
  else none

/-- Leftmost match of the query pattern, returning the capture group. -/
def findQueryCap : List Char → Option (List Char)
  | [] => none
  | c :: rest =>
    match queryCapAt (c :: rest) with
    | some cap => some cap
    | none => findQueryCap rest

/-! ## Capability registry and dispatcher (`src/a2a/handler.ts`) -/

/-- Oracle for the optional language-model collaborator: `chat` resolves with
a reply or rejects with a failure message. -/
structure Agent where
  chat : String → Except String String

/-- What a capability handler's promise resolves with. -/
inductive HandlerOut where
  | tool (r : ToolResult)
  | chat (response : String)
deriving DecidableEq, Repr

deriving instance DecidableEq for Except

/-- The opaque task input payload, restricted to the keys the registered
handlers actually read (unchecked `as` casts in the source). -/
structure TaskInput where
  title : Option String := none
  content : Option String := none
  folder_id : Option String := none
  document_id : Option String := none
  query : Option String := none
  limit : Option Int := none
  file_type : Option FileType := none
  message : Option String := none
  description : Option String := none
deriving DecidableEq, Repr

structure TaskCapability where
  type : String
  description : String
  handler : TaskInput → Except String HandlerOut

/-- Method `handleNaturalLanguageWithoutLLM`: the three ordered pattern checks
against the lower-cased message. -/
def GoogleWorkspaceHandler.handleNaturalLanguageWithoutLLM
    (tools : GoogleDocsTools) (input : TaskInput) : ToolResult :=
  let message := strToLower (jsOrStr input.message (jsOrStr input.description ""))
  if strIncludes message "create" && strIncludes message "doc" then
    let title :=
      match findTitleCap message.data with
      | some cap => String.mk cap
      | none => "Untitled Document"
    tools.createDocument (some title) none none
  else if strIncludes message "list" && strIncludes message "doc" then
    tools.listDocuments none none none
  else if strIncludes message "search" then
    let query :=
      match findQueryCap message.data with
      | some cap => String.mk cap
      | none => message
    tools.searchDrive (some query) none none
  else
    { success := false
      error := some "Could not understand the request. Please use specific tool commands or enable LLM for natural language processing." }

/-- Method `registerCapabilities`: the fixed capability map, in insertion order
(JS `Map` preserves it).  The `task:chat` handler consults the
language-model agent when one is configured and otherwise falls back to the
pattern matcher. -/
def GoogleWorkspaceHandler.capabilities (tools : GoogleDocsTools)
    (agent : Option Agent) : List (String × TaskCapability) :=
  [ ("google:docs:create",
     { type := "google:docs:create"
       description := "Create a new Google Doc"
       handler := fun input =>
         .ok (.tool (tools.createDocument input.title input.content input.folder_id)) }),
    ("google:docs:read",
     { type := "google:docs:read"
       description := "Read content from a Google Doc"
       handler := fun input => .ok (.tool (tools.readDocument input.document_id)) }),
    ("google:docs:update",
     { type := "google:docs:update"
       description := "Update content in a Google Doc"
       handler := fun input =>
         .ok (.tool (tools.updateDocument input.document_id input.content)) }),
    ("google:docs:append",
     { type := "google:docs:append"
       description := "Append content to a Google Doc"
       handler := fun input =>
         .ok (.tool (tools.appendToDocument input.document_id input.content)) }),
    ("google:docs:list",
     { type := "google:docs:list"
       description := "List Google Docs"
       handler := fun input =>
         .ok (.tool (tools.listDocuments input.folder_id input.query input.limit)) }),
    ("google:drive:search",
     { type := "google:drive:search"
       description := "Search Google Drive"
       handler := fun input =>
         .ok (.tool (tools.searchDrive input.query input.file_type input.limit)) }),
    ("task:chat",
     { type := "task:chat"
       description := "Natural language interaction with Google Workspace"
       handler := fun input =>
         match agent with
         | none => .ok (.tool (GoogleWorkspaceHandler.handleNaturalLanguageWithoutLLM tools input))
         | some ag =>
           (ag.chat (jsOrStr input.message (jsOrStr input.description ""))).map
             (fun response => .chat response) }) ]

/-- Method `getCapabilities`: the registered capability keys, in registration order. -/
def GoogleWorkspaceHandler.getCapabilities (tools : GoogleDocsTools)
    (agent : Option Agent) : List String :=
  (GoogleWorkspaceHandler.capabilities tools agent).map Prod.fst

/-! ## Task request/response shapes and the timeout race -/

structure A2ATaskRequest where
  task_id : String
  type : Option String := none
  description : Option String := none
  input : Option TaskInput := none
  timeout_ms : Option Int := none
  from_agent : Option String := none
  delegation_chain : Option (List String) := none

structure A2AError where
  code : String
  message : String
deriving DecidableEq, Repr

structure A2ATaskResponse where
  task_id : String
  status : String
  output : Option HandlerOut := none
  error : Option A2AError := none
  execution_time_ms : Int
deriving DecidableEq, Repr

/-- How the resolved handler's promise behaves in time: it settles (with
whatever value or rejection the pure embedding computes) after a given
number of milliseconds, or it never settles. -/
inductive AsyncExec where
  | settles (afterMs : Int)
  | hangs

/-- The message of the rejection produced by the timeout timer. -/
def timeoutMessage (timeoutMs : Int) : String :=
  "Task timeout after " ++ toString timeoutMs ++ "ms"

/-- Method `executeWithTimeout`: `Promise.race` of the handler against a
timer.  The timer fires at `max timeoutMs 0` (JS clamps negative delays);
the handler wins iff it settles strictly earlier.  Returns the settled
outcome paired with the time at which it was observed. -/
def executeWithTimeout (res : Except String HandlerOut) (exec : AsyncExec)
    (timeoutMs : Int) : Except String HandlerOut × Int :=
  let fireAt := max timeoutMs 0
  match exec with
  | .hangs => (.error (timeoutMessage timeoutMs), fireAt)
  | .settles d => if d < fireAt then (res, d) else (.error (timeoutMessage timeoutMs), fireAt)

/-- Successful-path response construction shared by both handler versions. -/
def successResponse (taskId : String) (result : HandlerOut) (t : Int) : A2ATaskResponse :=
  { task_id := taskId, status := "completed", output := some result, execution_time_ms := t }

/-- Catch clause of `handleTask` in `src/a2a/handler.ts`: the status is
always `"failed"`; a failure message containing `"timeout"` selects the
error code `"timeout"`, anything else `"execution_error"`. -/
def catchResponse (taskId : String) (errorMessage : String) (t : Int) : A2ATaskResponse :=
  let isTimeout := strIncludes errorMessage "timeout"
  { task_id := taskId, status := "failed"
    error := some { code := if isTimeout then "timeout" else "execution_error"
                    message := errorMessage }
    execution_time_ms := t }

/-- Catch clause of the variant `handleTask` (the unnamed handler copy):
same error code selection, but the status itself becomes `"timeout"` when
the message contains `"timeout"`. -/
def catchResponseV1 (taskId : String) (errorMessage : String) (t : Int) : A2ATaskResponse :=
  let isTimeout := strIncludes errorMessage "timeout"
  { task_id := taskId, status := if isTimeout then "timeout" else "failed"
    error := some { code := if isTimeout then "timeout" else "execution_error"
                    message := errorMessage }
    execution_time_ms := t }

/-- Unknown-task-type response of `src/a2a/handler.ts` (status `"failed"`). -/
def unknownResponse (taskId taskType : String) (keys : List String) : A2ATaskResponse :=
  { task_id := taskId, status := "failed"
    error := some { code := "unknown_task_type"
                    message := "Unknown task type: " ++ taskType ++ ". Available: "
                      ++ String.intercalate ", " keys }
    execution_time_ms := 0 }

/-- Unknown-task-type response of the variant handler (status `"rejected"`). -/
def unknownResponseV1 (taskId taskType : String) (keys : List String) : A2ATaskResponse :=
  { unknownResponse taskId taskType keys with status := "rejected" }

/-- Method `handleTask` of `src/a2a/handler.ts`.  Defaults: `task_id`
falls back to a generated id (modeled at dispatch time 0), `type` to
`task:chat`, `input` to `{ message: description }`, `timeout_ms` through
JS `||` to 30000.  An unregistered `google:`/`task:`-prefixed type falls
back to the `task:chat` capability with the original description merged
into the input. -/
def GoogleWorkspaceHandler.handleTask (tools : GoogleDocsTools) (agent : Option Agent)
    (request : A2ATaskRequest) (exec : AsyncExec) : A2ATaskResponse :=
  let taskId := if request.task_id = "" then "task_0" else request.task_id
  let taskType := jsOrStr request.type "task:chat"
  let input := match request.input with
    | some i => i
    | none => { message := request.description }
  let timeoutMs := jsOrInt request.timeout_ms 30000
  match (GoogleWorkspaceHandler.capabilities tools agent).lookup taskType with
  | some capability =>
    match executeWithTimeout (capability.handler input) exec timeoutMs with
    | (.ok result, t) => successResponse taskId result t
    | (.error msg, t) => catchResponse taskId msg t
  | none =>
    if strStartsWith taskType "google:" || strStartsWith taskType "task:" then
      match (GoogleWorkspaceHandler.capabilities tools agent).lookup "task:chat" with
      | some chatCapability =>
        match executeWithTimeout
            (chatCapability.handler { input with description := request.description })
            exec timeoutMs with
        | (.ok result, t) => successResponse taskId result t
        | (.error msg, t) => catchResponse taskId msg t
      | none =>
        unknownResponse taskId taskType (GoogleWorkspaceHandler.getCapabilities tools agent)
    else
      unknownResponse taskId taskType (GoogleWorkspaceHandler.getCapabilities tools agent)

/-- Method `handleTask` of the variant handler copy: identical dispatch, but
unknown types are `"rejected"` and a timer/timeout failure sets status
`"timeout"`. -/
def GoogleWorkspaceHandler.handleTaskV1 (tools : GoogleDocsTools) (agent : Option Agent)
    (request : A2ATaskRequest) (exec : AsyncExec) : A2ATaskResponse :=
  let taskId := if request.task_id = "" then "task_0" else request.task_id
  let taskType := jsOrStr request.type "task:chat"
  let input := match request.input with
    | some i => i
    | none => { message := request.description }
  let timeoutMs := jsOrInt request.timeout_ms 30000
  match (GoogleWorkspaceHandler.capabilities tools agent).lookup taskType with
  | some capability =>
    match executeWithTimeout (capability.handler input) exec timeoutMs with
    | (.ok result, t) => successResponse taskId result t
    | (.error msg, t) => catchResponseV1 taskId msg t
  | none =>
    if strStartsWith taskType "google:" || strStartsWith taskType "task:" then
      match (GoogleWorkspaceHandler.capabilities tools agent).lookup "task:chat" with
      | some chatCapability =>
        match executeWithTimeout
            (chatCapability.handler { input with description := request.description })
            exec timeoutMs with
        | (.ok result, t) => successResponse taskId result t
        | (.error msg, t) => catchResponseV1 taskId msg t
      | none =>
        unknownResponseV1 taskId taskType (GoogleWorkspaceHandler.getCapabilities tools agent)
    else
      unknownResponseV1 taskId taskType (GoogleWorkspaceHandler.getCapabilities tools agent)

/-! ## Credential store and lifecycle manager (`src/google-auth.ts`)

The key/value store is the external persistence collaborator (§6 of the
design): `get`/`set`/`delete`/`exists` over string keys.  JSON
serialization of a credential is modeled by a tagged value (`stringify`
then `parse` is a faithful round trip). -/

structure UserToken where
  userId : String
  email : String
  accessToken : String
  refreshToken : String
  expiresAt : Option Int := none
  scopes : List String
  createdAt : Int
  updatedAt : Int
deriving DecidableEq, Repr

inductive StoreVal where
  | s (v : String)
  | t (v : UserToken)
deriving DecidableEq, Repr

def Store : Type := String → Option StoreVal

def Store.set (σ : Store) (k : String) (v : StoreVal) : Store :=
  fun q => if q = k then some v else σ q

def Store.del (σ : Store) (k : String) : Store :=
  fun q => if q = k then none else σ q

def Store.empty : Store := fun _ => none

/-- Generic string-keyed in-memory map (the `Map` caches). -/
def mset {α : Type} (f : String → Option α) (k : String) (v : α) : String → Option α :=
  fun q => if q = k then some v else f q

def mdel {α : Type} (f : String → Option α) (k : String) : String → Option α :=
  fun q => if q = k then none else f q

def GOOGLE_SCOPES : List String :=
  [ "https://www.googleapis.com/auth/documents",
    "https://www.googleapis.com/auth/drive",
    "https://www.googleapis.com/auth/userinfo.email",
    "https://www.googleapis.com/auth/userinfo.profile" ]

/-- An OAuth2 client handle: `new google.auth.OAuth2(...)` plus the
credentials set on it.  `id` models JS object identity (each construction is
fresh). -/
structure OAuth2Client where
  id : Nat
  accessToken : String := ""
  refreshToken : String := ""
  expiryDate : Option Int := none
deriving DecidableEq, Repr

/-- Mutable state of `GoogleAuthManager`: the storage collaborator and the
per-user `clientCache`; `nextClientId` is the object-identity counter. -/
structure GoogleAuthManager where
  store : Store
  clientCache : String → Option OAuth2Client
  nextClientId : Nat

/-- The OAuth code-exchange response (`oauth2Client.getToken(code)`), as
supplied by the network environment. -/
structure TokenExchange where
  access_token : Option String := none
  refresh_token : Option String := none
  expiry_date : Option Int := none

/-- The authenticated user-info response (`oauth2.userinfo.get()`). -/
structure UserInfoResp where
  id : Option String := none
  email : Option String := none

/-- Private `getToken`: read and parse the primary credential record. -/
def GoogleAuthManager.getToken (m : GoogleAuthManager) (userId : String) : Option UserToken :=
  match m.store ("token:" ++ userId) with
  | some (.t tok) => some tok
  | _ => none

/-- Private `getUserIdByEmail`: the raw string under the email index key. -/
def GoogleAuthManager.getUserIdByEmail (m : GoogleAuthManager) (email : String) : Option String :=
  match m.store ("email:" ++ email) with
  | some (.s v) => some v
  | _ => none

/-- Private `storeToken`: writes the primary record and the email index
together. -/
def GoogleAuthManager.storeToken (m : GoogleAuthManager) (token : UserToken) : GoogleAuthManager :=
  let store1 := Store.set m.store ("token:" ++ token.userId) (.t token)
  let store2 := Store.set store1 ("email:" ++ token.email) (.s token.userId)
  { m with store := store2 }

/-- Method `handleCallback` (`completeAuthorization`): fails before touching
any state when the exchange yields no (or an empty, falsy) refresh token;
otherwise builds the credential from the exchange and user-info responses
and persists it.  `now` is the clock read for `createdAt`/`updatedAt`. -/
def GoogleAuthManager.handleCallback (m : GoogleAuthManager) (tokens : TokenExchange)
    (userInfo : UserInfoResp) (now : Int) : Except String UserToken × GoogleAuthManager :=
  if jsOrStr tokens.refresh_token "" = "" then
    (.error "No refresh token received. User may need to revoke access and re-authorize.", m)
  else
    let userToken : UserToken :=
      { userId := jsOrStr userInfo.id ""
        email := jsOrStr userInfo.email ""
        accessToken := jsOrStr tokens.access_token ""
        refreshToken := jsOrStr tokens.refresh_token ""
        expiresAt := match tokens.expiry_date with
          | some e => if e = 0 then none else some e
          | none => none
        scopes := GOOGLE_SCOPES
        createdAt := now
        updatedAt := now }
    (.ok userToken, m.storeToken userToken)

/-- Method `getClientForUser`: cached handle if present, otherwise load the
persisted credential, construct a fresh client seeded with the stored
tokens, cache it.  (The `on("tokens")` refresh callback registered on the
new client is event wiring fired only during live API calls; no modeled
operation triggers it.)  Returns `none` — not an error — when no credential
exists. -/
def GoogleAuthManager.getClientForUser (m : GoogleAuthManager) (userId : String) :
    Option OAuth2Client × GoogleAuthManager :=
  match m.clientCache userId with
  | some cached => (some cached, m)
  | none =>
    match m.getToken userId with
    | none => (none, m)
    | some token =>
      let oauth2Client : OAuth2Client :=
        { id := m.nextClientId
          accessToken := token.accessToken
          refreshToken := token.refreshToken
          expiryDate := token.expiresAt }
      (some oauth2Client,
        { m with nextClientId := m.nextClientId + 1
                 clientCache := mset m.clientCache userId oauth2Client })

/-- Method `getClientForEmail`: resolve the email index first, then delegate
to the user-id path. -/
def GoogleAuthManager.getClientForEmail (m : GoogleAuthManager) (email : String) :
    Option OAuth2Client × GoogleAuthManager :=
  match m.getUserIdByEmail email with
  | none => (none, m)
  | some userId => m.getClientForUser userId

def GoogleAuthManager.hasUser (m : GoogleAuthManager) (userId : String) : Bool :=
  (m.store ("token:" ++ userId)).isSome

def GoogleAuthManager.hasUserByEmail (m : GoogleAuthManager) (email : String) : Bool :=
  (m.getUserIdByEmail email).isSome

/-- Method `removeUser`: delete the email index entry named by the credential
being deleted (when one exists), then the primary key, then evict the cached
client handle. -/
def GoogleAuthManager.removeUser (m : GoogleAuthManager) (userId : String) : GoogleAuthManager :=
  let m1 := match m.getToken userId with
    | some token => { m with store := m.store.del ("email:" ++ token.email) }
    | none => m
  { m1 with store := m1.store.del ("token:" ++ userId)
            clientCache := mdel m1.clientCache userId }

/-! ## Client factory (`src/google-factory.ts`) -/

/-- A constructed `GoogleWorkspaceClient` service handle: a stateless wrapper
bound to one OAuth2 client.  `id` models JS object identity; the
network-facing methods of such a handle are the `GoogleWorkspaceClient`
oracle of the dispatcher section. -/
structure ClientHandle where
  id : Nat
  auth : OAuth2Client
deriving DecidableEq, Repr

structure GoogleClientFactory where
  authManager : GoogleAuthManager
  clientCache : String → Option ClientHandle
  nextClientId : Nat

def GoogleClientFactory.handleOAuthCallback (f : GoogleClientFactory)
    (tokens : TokenExchange) (userInfo : UserInfoResp) (now : Int) :
    Except String UserToken × GoogleClientFactory :=
  match f.authManager.handleCallback tokens userInfo now with
  | (.error e, ast) => (.error e, { f with authManager := ast })
  | (.ok token, ast) =>
    (.ok token, { f with authManager := ast
                         clientCache := mdel f.clientCache token.userId })

def GoogleClientFactory.getClientForUser (f : GoogleClientFactory) (userId : String) :
    Option ClientHandle × GoogleClientFactory :=
  match f.clientCache userId with
  | some cached => (some cached, f)
  | none =>
    match f.authManager.getClientForUser userId with
    | (none, ast) => (none, { f with authManager := ast })
    | (some auth, ast) =>
      let client : ClientHandle := { id := f.nextClientId, auth := auth }
      (some client,
        { f with authManager := ast
                 nextClientId := f.nextClientId + 1
                 clientCache := mset f.clientCache userId client })

/-- Factory `getClientForEmail`: delegates the email resolution to the auth
manager and wraps the resulting handle in a newly constructed service
client; the factory's own cache is neither consulted nor written. -/
def GoogleClientFactory.getClientForEmail (f : GoogleClientFactory) (email : String) :
    Option ClientHandle × GoogleClientFactory :=
  match f.authManager.getClientForEmail email with
  | (none, ast) => (none, { f with authManager := ast })
  | (some auth, ast) =>
    let client : ClientHandle := { id := f.nextClientId, auth := auth }
    (some client, { f with authManager := ast, nextClientId := f.nextClientId + 1 })

def GoogleClientFactory.hasUser (f : GoogleClientFactory) (userId : String) : Bool :=
  f.authManager.hasUser userId

def GoogleClientFactory.hasUserByEmail (f : GoogleClientFactory) (email : String) : Bool :=
  f.authManager.hasUserByEmail email

def GoogleClientFactory.removeUser (f : GoogleClientFactory) (userId : String) :
    GoogleClientFactory :=
  { f with authManager := f.authManager.removeUser userId
           clientCache := mdel f.clientCache userId }

/-! ## Concrete environment instances used by witnesses and counterexamples -/

def stubDoc : DocumentInfo := { id := "d1", title := "T", url := "u" }

/-- A service-client oracle whose calls all succeed with fixed data. -/
def stubClient : GoogleWorkspaceClient :=
  { createDocument := fun _ _ _ => .ok stubDoc
    readDocument := fun _ => .ok { id := "d1", title := "T", content := "c", url := "u" }
    updateDocument := fun _ _ => .ok stubDoc
    appendToDocument := fun _ _ => .ok stubDoc
    listDocuments := fun _ _ _ => .ok [stubDoc]
    searchDrive := fun _ _ _ => .ok [] }

def stubTools : GoogleDocsTools := { client := stubClient }

/-- A service-client oracle whose every call raises the failure `e`. -/
def failClient (e : String) : GoogleWorkspaceClient :=
  { createDocument := fun _ _ _ => .error e
    readDocument := fun _ => .error e
    updateDocument := fun _ _ => .error e
    appendToDocument := fun _ _ => .error e
    listDocuments := fun _ _ _ => .error e
    searchDrive := fun _ _ _ => .error e }

def failTools (e : String) : GoogleDocsTools := { client := failClient e }

/-! ## Helper lemmas -/

theorem strIncludes_iff {s sub : String} : strIncludes s sub = true ↔ sub.data <:+: s.data := by
  simp [strIncludes]

theorem strIncludes_append_left {a sub : String} (b : String)
    (h : strIncludes a sub = true) : strIncludes (a ++ b) sub = true := by
  rw [strIncludes_iff] at h ⊢
  refine h.trans ⟨[], b.data, ?_⟩
  simp [String.data_append]

theorem strIncludes_append_right (a : String) {b sub : String}
    (h : strIncludes b sub = true) : strIncludes (a ++ b) sub = true := by
  rw [strIncludes_iff] at h ⊢
  refine h.trans ⟨a.data, [], ?_⟩
  simp [String.data_append]

theorem strIncludes_self (s : String) : strIncludes s s = true := by
  rw [strIncludes_iff]

/-- The timer's rejection message always contains the substring `"timeout"`. -/
theorem timeoutMessage_includes_timeout (t : Int) :
    strIncludes (timeoutMessage t) "timeout" = true := by
  have h0 : strIncludes "Task timeout after " "timeout" = true := by decide
  exact strIncludes_append_left "ms" (strIncludes_append_left (toString t) h0)

/-- The timer's rejection message contains the configured duration. -/
theorem timeoutMessage_includes_duration (t : Int) :
    strIncludes (timeoutMessage t) (toString t) = true := by
  exact strIncludes_append_left "ms"
    (strIncludes_append_right "Task timeout after " (strIncludes_self (toString t)))

theorem lookup_eq_none_of_forall_ne {β : Type} (l : List (String × β)) (a : String)
    (h : ∀ p ∈ l, a ≠ p.1) : l.lookup a = none := by
  induction l with
  | nil => rfl
  | cons p rest ih =>
    have hne : a ≠ p.1 := h p (List.mem_cons_self p rest)
    have : (a == p.1) = false := beq_false_of_ne hne
    simp only [List.lookup, this]
    exact ih fun q hq => h q (List.mem_cons_of_mem p hq)

theorem lookup_isSome_iff_mem_keys {β : Type} (l : List (String × β)) (a : String) :
    (l.lookup a).isSome = true ↔ a ∈ l.map Prod.fst := by
  induction l with
  | nil => simp [List.lookup]
  | cons p rest ih =>
    by_cases hap : a = p.1
    · subst hap
      simp [List.lookup]
    · have : (a == p.1) = false := beq_false_of_ne hap
      simp [List.lookup, this, ih, hap]

/-! ## C7 — timeout defaulting -/

/-- C7, counterexample: the claim says `timeoutMs` is defaulted to 30000
whenever `timeout_ms` is absent or non-positive.  JS `||` only replaces
`undefined`/`0`: with `timeout_ms = -5` the handler is raced against -5 ms,
as the timer's own message shows, not against 30000 ms. -/
theorem c7_counterexample :
    (GoogleWorkspaceHandler.handleTask stubTools none
      { task_id := "t1", type := some "google:docs:create",
        input := some { title := some "N" }, timeout_ms := some (-5) } .hangs).error
      = some { code := "timeout", message := timeoutMessage (-5) } ∧
    timeoutMessage (-5) ≠ timeoutMessage 30000 := by
  decide

/-- C7, amended: `handleTask` defaults `timeoutMs` to the constant 30000 when
`timeout_ms` is absent or zero; a negative `timeout_ms` is kept as supplied
and the handler is raced against it unchanged. -/
theorem c7_amended_timeout_default :
    (∀ (tools : GoogleDocsTools) (req : A2ATaskRequest),
      req.type = none → (req.timeout_ms = none ∨ req.timeout_ms = some 0) →
      (GoogleWorkspaceHandler.handleTask tools none req .hangs).error
        = some { code := "timeout", message := timeoutMessage 30000 }) ∧
    (∀ (tools : GoogleDocsTools) (req : A2ATaskRequest) (T : Int),
      req.type = none → req.timeout_ms = some T → T < 0 →
      (GoogleWorkspaceHandler.handleTask tools none req .hangs).error
        = some { code := "timeout", message := timeoutMessage T }) := by
  constructor
  · intro tools req htype htm
    have h2 : jsOrInt req.timeout_ms 30000 = 30000 := by
      rcases htm with h | h <;> simp [h, jsOrInt]
    simp [GoogleWorkspaceHandler.handleTask, htype, h2, jsOrStr,
      GoogleWorkspaceHandler.capabilities, List.lookup, executeWithTimeout,
      catchResponse, timeoutMessage_includes_timeout 30000]
  · intro tools req T htype htm hT
    have hne : T ≠ 0 := by omega
    have h2 : jsOrInt req.timeout_ms 30000 = T := by simp [htm, jsOrInt, hne]
    simp [GoogleWorkspaceHandler.handleTask, htype, h2, jsOrStr,
      GoogleWorkspaceHandler.capabilities, List.lookup, executeWithTimeout,
      catchResponse, timeoutMessage_includes_timeout T]

/-- C7, witness for the amended theorem at concrete inputs. -/
theorem c7_amended_timeout_default_witness :
    (GoogleWorkspaceHandler.handleTask stubTools none { task_id := "t1" } .hangs).error
      = some { code := "timeout", message := timeoutMessage 30000 } ∧
    (GoogleWorkspaceHandler.handleTask stubTools none
      { task_id := "t1", timeout_ms := some (-7) } .hangs).error
      = some { code := "timeout", message := timeoutMessage (-7) } :=
  ⟨c7_amended_timeout_default.1 stubTools _ rfl (Or.inl rfl),
   c7_amended_timeout_default.2 stubTools _ (-7) rfl rfl (by decide)⟩

/-! ## C1 — timeout outcome and classification -/

/-- C1, counterexample: a dispatched task whose handler never settles is
claimed to yield `status = timeout`; `handleTask` of `src/a2a/handler.ts`
returns `status = "failed"` (the error *code* is `"timeout"`). -/
theorem c1_counterexample :
    (GoogleWorkspaceHandler.handleTask stubTools none
      { task_id := "t1", type := some "google:docs:create",
        input := some { title := some "N" }, timeout_ms := some 50 } .hangs).status
      = "failed" ∧
    (GoogleWorkspaceHandler.handleTask stubTools none
      { task_id := "t1", type := some "google:docs:create",
        input := some { title := some "N" }, timeout_ms := some 50 } .hangs).status
      ≠ "timeout" := by
  decide

/-- When the handler has not settled by the (positive) deadline, the race is
won by the timer. -/
theorem executeWithTimeout_timer (res : Except String HandlerOut) (exec : AsyncExec)
    (T : Int) (hT : 0 < T) (h : exec = .hangs ∨ ∃ d, exec = .settles d ∧ T ≤ d) :
    executeWithTimeout res exec T = (.error (timeoutMessage T), T) := by
  have hmax : max T 0 = T := max_eq_left (le_of_lt hT)
  rcases h with h | ⟨d, h, hd⟩ <;> subst h
  · simp [executeWithTimeout, hmax]
  · have hnot : ¬ (d < T) := by omega
    simp [executeWithTimeout, hmax, hnot]

/-- When the handler settles before the deadline, the race is won by the
handler. -/
theorem executeWithTimeout_handler (res : Except String HandlerOut) (d T : Int)
    (hd : 0 ≤ d) (hdT : d < T) :
    executeWithTimeout res (.settles d) T = (res, d) := by
  have hmax : max T 0 = T := max_eq_left (by omega)
  have hlt : d < max T 0 := by rw [hmax]; exact hdT
  simp [executeWithTimeout, hlt]

/-- C1, amended: for every dispatched task that resolves a handler — an
effective type that is registered, or unregistered but `google:`/`task:`
prefixed (falling back to the conversational capability) — when that
handler does not settle within `timeoutMs` (`0 < timeoutMs`), both handler
versions report error code `"timeout"` with the timer's message, which
contains the configured duration, and `executionTimeMs ≥ timeoutMs`; the
status is `"failed"` in `src/a2a/handler.ts` and `"timeout"` only in the
variant handler copy.  More generally (second conjunct), on either dispatch
path, any rejection of the resolved handler is classified by whether its
message contains the substring `"timeout"`: such a message yields error
code `"timeout"` — again with status `"failed"` in `src/a2a/handler.ts`
and `"timeout"` in the variant. -/
theorem c1_amended_timeout_classification :
    (∀ (tools : GoogleDocsTools) (agent : Option Agent) (req : A2ATaskRequest)
        (exec : AsyncExec) (T : Int),
      req.timeout_ms = some T → 0 < T →
      (exec = .hangs ∨ ∃ d, exec = .settles d ∧ T ≤ d) →
      (((GoogleWorkspaceHandler.capabilities tools agent).lookup
          (jsOrStr req.type "task:chat")).isSome = true ∨
       strStartsWith (jsOrStr req.type "task:chat") "google:" = true ∨
       strStartsWith (jsOrStr req.type "task:chat") "task:" = true) →
      ((GoogleWorkspaceHandler.handleTask tools agent req exec).status = "failed" ∧
       (GoogleWorkspaceHandler.handleTaskV1 tools agent req exec).status = "timeout" ∧
       (GoogleWorkspaceHandler.handleTask tools agent req exec).error
         = some { code := "timeout", message := timeoutMessage T } ∧
       (GoogleWorkspaceHandler.handleTaskV1 tools agent req exec).error
         = some { code := "timeout", message := timeoutMessage T } ∧
       strIncludes (timeoutMessage T) (toString T) = true ∧
       T ≤ (GoogleWorkspaceHandler.handleTask tools agent req exec).execution_time_ms ∧
       T ≤ (GoogleWorkspaceHandler.handleTaskV1 tools agent req exec).execution_time_ms)) ∧
    (∀ (tools : GoogleDocsTools) (agent : Option Agent) (req : A2ATaskRequest)
        (msg : String) (d T : Int),
      req.timeout_ms = some T → 0 ≤ d → d < T →
      ((∃ cap, (GoogleWorkspaceHandler.capabilities tools agent).lookup
            (jsOrStr req.type "task:chat") = some cap ∧
          cap.handler (match req.input with
            | some i => i
            | none => { message := req.description }) = .error msg) ∨
       ((GoogleWorkspaceHandler.capabilities tools agent).lookup
            (jsOrStr req.type "task:chat") = none ∧
        (strStartsWith (jsOrStr req.type "task:chat") "google:" = true ∨
         strStartsWith (jsOrStr req.type "task:chat") "task:" = true) ∧
        ∃ cap, (GoogleWorkspaceHandler.capabilities tools agent).lookup "task:chat"
            = some cap ∧
          cap.handler { (match req.input with
            | some i => i
            | none => { message := req.description }) with
              description := req.description } = .error msg)) →
      ((GoogleWorkspaceHandler.handleTask tools agent req (.settles d)).status
          = "failed" ∧
       (GoogleWorkspaceHandler.handleTask tools agent req (.settles d)).error
          = some { code := if strIncludes msg "timeout" then "timeout" else "execution_error"
                   message := msg } ∧
       (GoogleWorkspaceHandler.handleTaskV1 tools agent req (.settles d)).status
          = (if strIncludes msg "timeout" then "timeout" else "failed") ∧
       (GoogleWorkspaceHandler.handleTaskV1 tools agent req (.settles d)).error
          = (GoogleWorkspaceHandler.handleTask tools agent req (.settles d)).error ∧
       (strIncludes msg "timeout" = true →
         (GoogleWorkspaceHandler.handleTask tools agent req (.settles d)).error
           = some { code := "timeout", message := msg } ∧
         (GoogleWorkspaceHandler.handleTaskV1 tools agent req (.settles d)).status
           = "timeout"))) := by
  constructor
  · intro tools agent req exec T htm hT hexec hdisp
    have hne : T ≠ 0 := by omega
    have h2 : jsOrInt req.timeout_ms 30000 = T := by simp [htm, jsOrInt, hne]
    have hmain : GoogleWorkspaceHandler.handleTask tools agent req exec
        = catchResponse (if req.task_id = "" then "task_0" else req.task_id)
            (timeoutMessage T) T ∧
        GoogleWorkspaceHandler.handleTaskV1 tools agent req exec
        = catchResponseV1 (if req.task_id = "" then "task_0" else req.task_id)
            (timeoutMessage T) T := by
      cases hlk : (GoogleWorkspaceHandler.capabilities tools agent).lookup
          (jsOrStr req.type "task:chat") with
      | some cap =>
        constructor <;>
          simp only [GoogleWorkspaceHandler.handleTask, GoogleWorkspaceHandler.handleTaskV1,
            h2, hlk, executeWithTimeout_timer _ exec T hT hexec]
      | none =>
        have hpref : (strStartsWith (jsOrStr req.type "task:chat") "google:"
            || strStartsWith (jsOrStr req.type "task:chat") "task:") = true := by
          rcases hdisp with h | h | h
          · rw [hlk] at h
            simp at h
          · simp [h]
          · simp [h]
        obtain ⟨cap, hcap⟩ : ∃ cap,
            (GoogleWorkspaceHandler.capabilities tools agent).lookup "task:chat"
              = some cap := by
          simp [GoogleWorkspaceHandler.capabilities, List.lookup]
        constructor <;>
          simp only [GoogleWorkspaceHandler.handleTask, GoogleWorkspaceHandler.handleTaskV1,
            h2, hlk, hpref, if_true, hcap, executeWithTimeout_timer _ exec T hT hexec]
    refine ⟨?_, ?_, ?_, ?_, timeoutMessage_includes_duration T, ?_, ?_⟩ <;>
      simp [hmain.1, hmain.2, catchResponse, catchResponseV1,
        timeoutMessage_includes_timeout T]
  · intro tools agent req msg d T htm hd hdT hreject
    have hT : 0 < T := by omega
    have hne : T ≠ 0 := by omega
    have h2 : jsOrInt req.timeout_ms 30000 = T := by simp [htm, jsOrInt, hne]
    have hmain : GoogleWorkspaceHandler.handleTask tools agent req (.settles d)
        = catchResponse (if req.task_id = "" then "task_0" else req.task_id) msg d ∧
        GoogleWorkspaceHandler.handleTaskV1 tools agent req (.settles d)
        = catchResponseV1 (if req.task_id = "" then "task_0" else req.task_id) msg d := by
      rcases hreject with ⟨cap, hcap, hfail⟩ | ⟨hlkn, hpref, cap, hcap, hfail⟩
      · constructor <;>
          simp only [GoogleWorkspaceHandler.handleTask, GoogleWorkspaceHandler.handleTaskV1,
            h2, hcap, hfail, executeWithTimeout_handler _ d T hd hdT]
      · have hpref2 : (strStartsWith (jsOrStr req.type "task:chat") "google:"
            || strStartsWith (jsOrStr req.type "task:chat") "task:") = true := by
          rcases hpref with h | h <;> simp [h]
        constructor <;>
          simp only [GoogleWorkspaceHandler.handleTask, GoogleWorkspaceHandler.handleTaskV1,
            h2, hlkn, hpref2, if_true, hcap, hfail,
            executeWithTimeout_handler _ d T hd hdT]
    refine ⟨?_, ?_, ?_, ?_, fun hmsg => ⟨?_, ?_⟩⟩ <;>
      simp_all [hmain.1, hmain.2, catchResponse, catchResponseV1]

/-- A language-model oracle whose chat call rejects with a message containing
the substring `"timeout"`. -/
def timeoutAgent : Agent := { chat := fun _ => .error "upstream timeout hit" }

/-- C1, witness for the amended theorem at concrete inputs: a hanging handler
on the default dispatch, a hanging handler on an explicitly-typed
`google:docs:create` dispatch, and a rejecting chat handler whose failure
message contains `"timeout"`. -/
theorem c1_amended_timeout_classification_witness :
    (GoogleWorkspaceHandler.handleTask stubTools none
      { task_id := "t1", timeout_ms := some 50 } .hangs).status = "failed" ∧
    (GoogleWorkspaceHandler.handleTaskV1 stubTools none
      { task_id := "t1", timeout_ms := some 50 } .hangs).status = "timeout" ∧
    (GoogleWorkspaceHandler.handleTask stubTools none
      { task_id := "t3", type := some "google:docs:create",
        input := some { title := some "N" }, timeout_ms := some 50 } .hangs).error
      = some { code := "timeout", message := timeoutMessage 50 } ∧
    (GoogleWorkspaceHandler.handleTask stubTools (some timeoutAgent)
      { task_id := "t2", type := some "task:chat", input := some {},
        timeout_ms := some 50 } (.settles 3)).error
      = some { code := "timeout", message := "upstream timeout hit" } ∧
    (GoogleWorkspaceHandler.handleTaskV1 stubTools (some timeoutAgent)
      { task_id := "t2", type := some "task:chat", input := some {},
        timeout_ms := some 50 } (.settles 3)).status = "timeout" :=
  have h1 := c1_amended_timeout_classification.1 stubTools none
    { task_id := "t1", timeout_ms := some 50 } .hangs 50 rfl (by decide) (Or.inl rfl)
    (Or.inl (by decide))
  have h3 := c1_amended_timeout_classification.1 stubTools none
    { task_id := "t3", type := some "google:docs:create",
      input := some { title := some "N" }, timeout_ms := some 50 } .hangs 50
    rfl (by decide) (Or.inl rfl) (Or.inl (by decide))
  have h2 := c1_amended_timeout_classification.2 stubTools (some timeoutAgent)
    { task_id := "t2", type := some "task:chat", input := some {},
      timeout_ms := some 50 } "upstream timeout hit" 3 50
    rfl (by decide) (by decide) (Or.inl ⟨_, rfl, rfl⟩)
  have h2c := h2.2.2.2.2 (by decide)
  ⟨h1.1, h1.2.1, h3.2.2.1, h2c.1, h2c.2⟩

/-! ## C3 — unknown task type, not prefix-eligible -/

/-- C3: dispatching a type that is not registered and carries neither the
`google:` nor the `task:` prefix yields `error.code = "unknown_task_type"`
with a status in {rejected, failed} (`"failed"` in `src/a2a/handler.ts`,
`"rejected"` in the variant copy), and the error message enumerates every
currently registered capability key exactly once (the joined key list is
duplicate-free and mentions exactly the registered keys). -/
theorem c3_unknown_type_rejection (tools : GoogleDocsTools) (agent : Option Agent)
    (req : A2ATaskRequest) (exec : AsyncExec)
    (hmem : jsOrStr req.type "task:chat" ∉ GoogleWorkspaceHandler.getCapabilities tools agent)
    (hg : strStartsWith (jsOrStr req.type "task:chat") "google:" = false)
    (ht : strStartsWith (jsOrStr req.type "task:chat") "task:" = false) :
    (GoogleWorkspaceHandler.handleTask tools agent req exec).status = "failed" ∧
    (GoogleWorkspaceHandler.handleTaskV1 tools agent req exec).status = "rejected" ∧
    (GoogleWorkspaceHandler.handleTask tools agent req exec).status ∈
      (["rejected", "failed"] : List String) ∧
    (GoogleWorkspaceHandler.handleTaskV1 tools agent req exec).status ∈
      (["rejected", "failed"] : List String) ∧
    (GoogleWorkspaceHandler.handleTask tools agent req exec).error
      = some { code := "unknown_task_type"
               message := "Unknown task type: " ++ jsOrStr req.type "task:chat"
                 ++ ". Available: "
                 ++ String.intercalate ", " (GoogleWorkspaceHandler.getCapabilities tools agent) } ∧
    (GoogleWorkspaceHandler.handleTaskV1 tools agent req exec).error
      = (GoogleWorkspaceHandler.handleTask tools agent req exec).error ∧
    (GoogleWorkspaceHandler.getCapabilities tools agent).Nodup ∧
    (∀ k, ((GoogleWorkspaceHandler.capabilities tools agent).lookup k).isSome = true ↔
      k ∈ GoogleWorkspaceHandler.getCapabilities tools agent) := by
  have hlk : (GoogleWorkspaceHandler.capabilities tools agent).lookup
      (jsOrStr req.type "task:chat") = none := by
    apply lookup_eq_none_of_forall_ne
    intro p hp h
    exact hmem (h ▸ List.mem_map_of_mem Prod.fst hp)
  have hkeys : GoogleWorkspaceHandler.getCapabilities tools agent
      = ["google:docs:create", "google:docs:read", "google:docs:update",
         "google:docs:append", "google:docs:list", "google:drive:search", "task:chat"] := rfl
  have hmain : GoogleWorkspaceHandler.handleTask tools agent req exec
      = unknownResponse (if req.task_id = "" then "task_0" else req.task_id)
          (jsOrStr req.type "task:chat")
          (GoogleWorkspaceHandler.getCapabilities tools agent) := by
    simp only [GoogleWorkspaceHandler.handleTask, hlk, hg, ht]
    simp
  have hmainV : GoogleWorkspaceHandler.handleTaskV1 tools agent req exec
      = unknownResponseV1 (if req.task_id = "" then "task_0" else req.task_id)
          (jsOrStr req.type "task:chat")
          (GoogleWorkspaceHandler.getCapabilities tools agent) := by
    simp only [GoogleWorkspaceHandler.handleTaskV1, hlk, hg, ht]
    simp
  refine ⟨?_, ?_, ?_, ?_, ?_, ?_, by rw [hkeys]; decide,
    fun k => lookup_isSome_iff_mem_keys _ k⟩ <;>
    simp [hmain, hmainV, unknownResponse, unknownResponseV1]

/-- C3, witness at the spec's own example input `type = "unknown:thing"`. -/
theorem c3_unknown_type_rejection_witness :
    (GoogleWorkspaceHandler.handleTask stubTools none
      { task_id := "t1", type := some "unknown:thing" } (.settles 0)).status = "failed" ∧
    (GoogleWorkspaceHandler.handleTaskV1 stubTools none
      { task_id := "t1", type := some "unknown:thing" } (.settles 0)).status = "rejected" ∧
    (GoogleWorkspaceHandler.handleTask stubTools none
      { task_id := "t1", type := some "unknown:thing" } (.settles 0)).error
      = some { code := "unknown_task_type"
               message := "Unknown task type: unknown:thing. Available: google:docs:create, google:docs:read, google:docs:update, google:docs:append, google:docs:list, google:drive:search, task:chat" } :=
  have h := c3_unknown_type_rejection stubTools none
    { task_id := "t1", type := some "unknown:thing" } (.settles 0)
    (by decide) (by decide) (by decide)
  ⟨h.1, h.2.1, by rw [h.2.2.2.2.1]; rfl⟩

/-! ## C8 — namespace-prefixed fallback to the conversational capability -/

/-- C8: an unregistered type that starts with `google:` or `task:` makes
`handleTask` fall back to the `task:chat` capability, invoking its handler
with the original request description merged into the input (overwriting any
`description` already in the input), and a successful fallback execution
yields `status = "completed"` with the fallback handler's result as output
(identically in both handler versions). -/
theorem c8_prefix_fallback (tools : GoogleDocsTools) (agent : Option Agent)
    (req : A2ATaskRequest) (i : TaskInput) (d T : Int) (out : HandlerOut)
    (hmem : jsOrStr req.type "task:chat" ∉ GoogleWorkspaceHandler.getCapabilities tools agent)
    (hpref : strStartsWith (jsOrStr req.type "task:chat") "google:" = true ∨
             strStartsWith (jsOrStr req.type "task:chat") "task:" = true)
    (hinput : req.input = some i)
    (htm : req.timeout_ms = some T) (hd : 0 ≤ d) (hdT : d < T)
    (hhandler : ((GoogleWorkspaceHandler.capabilities tools agent).lookup "task:chat").map
      (fun cap => cap.handler { i with description := req.description }) = some (.ok out)) :
    (GoogleWorkspaceHandler.handleTask tools agent req (.settles d)).status = "completed" ∧
    (GoogleWorkspaceHandler.handleTask tools agent req (.settles d)).output = some out ∧
    (GoogleWorkspaceHandler.handleTask tools agent req (.settles d)).execution_time_ms = d ∧
    (GoogleWorkspaceHandler.handleTaskV1 tools agent req (.settles d)).status = "completed" ∧
    (GoogleWorkspaceHandler.handleTaskV1 tools agent req (.settles d)).output = some out ∧
    (GoogleWorkspaceHandler.handleTaskV1 tools agent req (.settles d)).execution_time_ms = d := by
  have hlk : (GoogleWorkspaceHandler.capabilities tools agent).lookup
      (jsOrStr req.type "task:chat") = none := by
    apply lookup_eq_none_of_forall_ne
    intro p hp h
    exact hmem (h ▸ List.mem_map_of_mem Prod.fst hp)
  have hpref2 : (strStartsWith (jsOrStr req.type "task:chat") "google:"
      || strStartsWith (jsOrStr req.type "task:chat") "task:") = true := by
    rcases hpref with h | h <;> simp [h]
  obtain ⟨cap, hcap⟩ : ∃ cap,
      (GoogleWorkspaceHandler.capabilities tools agent).lookup "task:chat" = some cap := by
    simp [GoogleWorkspaceHandler.capabilities, List.lookup]
  rw [hcap] at hhandler
  simp only [Option.map_some', Option.some.injEq] at hhandler
  have hout : cap.handler { i with description := req.description } = .ok out := hhandler
  have hT : 0 < T := by omega
  have hne : T ≠ 0 := by omega
  have h2 : jsOrInt req.timeout_ms 30000 = T := by simp [htm, jsOrInt, hne]
  refine ⟨?_, ?_, ?_, ?_, ?_, ?_⟩ <;>
    simp only [GoogleWorkspaceHandler.handleTask, GoogleWorkspaceHandler.handleTaskV1,
      hlk, hinput, hpref2, if_true, hcap, h2, hout,
      executeWithTimeout_handler _ d T hd hdT] <;>
    simp [successResponse]

/-- C8, witness: an unregistered `google:`-prefixed type with a natural
language description falls back to the conversational capability and
completes. -/
theorem c8_prefix_fallback_witness :
    (GoogleWorkspaceHandler.handleTask stubTools none
      { task_id := "t8", type := some "google:sheets:x",
        description := some "create a doc called \"hi\"",
        input := some {}, timeout_ms := some 100 } (.settles 3)).status = "completed" ∧
    (GoogleWorkspaceHandler.handleTask stubTools none
      { task_id := "t8", type := some "google:sheets:x",
        description := some "create a doc called \"hi\"",
        input := some {}, timeout_ms := some 100 } (.settles 3)).output
      = some (.tool { success := true
                      data := some (.createData "Document \"hi\" created successfully" stubDoc) }) :=
  have h := c8_prefix_fallback stubTools none
    { task_id := "t8", type := some "google:sheets:x",
      description := some "create a doc called \"hi\"",
      input := some {}, timeout_ms := some 100 } {} 3 100
    (.tool { success := true
             data := some (.createData "Document \"hi\" created successfully" stubDoc) })
    (by decide) (Or.inl (by decide)) rfl rfl (by decide) (by decide) (by decide)
  ⟨h.1, h.2.1⟩

/-! ## C9 — soundness facts about the pattern matchers -/

theorem infix_of_infix_drop {x l : List Char} (n : Nat) (h : x <:+: l.drop n) :
    x <:+: l :=
  h.trans (List.drop_suffix n l).isInfix

theorem infix_of_infix_tail {x : List Char} {c : Char} {l : List Char}
    (h : x <:+: l) : x <:+: c :: l :=
  h.trans (List.suffix_cons c l).isInfix

/-- A successful title-tail match captures a nonempty run that occurs quoted
in the input. -/
theorem matchTitleTail_sound {s cap : List Char} (h : matchTitleTail s = some cap) :
    cap ≠ [] ∧ ('"' :: (cap ++ ['"'])) <:+: s := by
  unfold matchTitleTail at h
  simp only at h
  split at h
  · exact absurd h (by simp)
  · split at h
    · rename_i rest heq
      split at h
      · exact absurd h (by simp)
      · rename_i hcapne
        split at h
        · rename_i tl heq2
          obtain rfl : rest.takeWhile (fun c => c ≠ '"') = cap := by
            injection h
          refine ⟨by simpa using hcapne, ⟨s.take (s.takeWhile jsWhitespace).length, tl, ?_⟩⟩
          conv_rhs => rw [← List.take_append_drop (s.takeWhile jsWhitespace).length s, heq]
          conv_rhs => rw [← List.takeWhile_append_dropWhile (p := fun c => c ≠ '"') (l := rest), heq2]
          simp
        · exact absurd h (by simp)
    · exact absurd h (by simp)

/-- A successful anchored title match is a quoted nonempty capture. -/
theorem titleCapAt_sound {s cap : List Char} (h : titleCapAt s = some cap) :
    cap ≠ [] ∧ ('"' :: (cap ++ ['"'])) <:+: s := by
  unfold titleCapAt at h
  split at h
  · obtain ⟨h1, h2⟩ := matchTitleTail_sound h
    exact ⟨h1, infix_of_infix_drop 6 h2⟩
  · split at h
    · obtain ⟨h1, h2⟩ := matchTitleTail_sound h
      exact ⟨h1, infix_of_infix_drop 5 h2⟩
    · split at h
      · obtain ⟨h1, h2⟩ := matchTitleTail_sound h
        exact ⟨h1, infix_of_infix_drop 6 h2⟩
      · exact absurd h (by simp)

/-- The leftmost title match is a quoted nonempty capture. -/
theorem findTitleCap_sound {s cap : List Char} (h : findTitleCap s = some cap) :
    cap ≠ [] ∧ ('"' :: (cap ++ ['"'])) <:+: s := by
  induction s with
  | nil => exact absurd h (by simp [findTitleCap])
  | cons c rest ih =>
    unfold findTitleCap at h
    split at h
    · rename_i cap0 heq
      obtain rfl : cap0 = cap := by injection h
      exact titleCapAt_sound heq
    · obtain ⟨h1, h2⟩ := ih h
      exact ⟨h1, infix_of_infix_tail h2⟩

/-- A successful bare-capture match is a nonempty quote-free prefix. -/
theorem qcap_sound {s cap : List Char} (h : qcap s = some cap) :
    cap ≠ [] ∧ cap.all (fun c => !(isQuoteCh c)) = true ∧ cap <+: s := by
  unfold qcap at h
  simp only at h
  split at h
  · exact absurd h (by simp)
  · rename_i hne
    obtain rfl : s.takeWhile (fun c => !(isQuoteCh c)) = cap := by injection h
    refine ⟨by simpa using hne, ?_, List.takeWhile_prefix _⟩
    rw [List.all_eq_true]
    intro x hx
    simpa using List.mem_takeWhile_imp hx

/-- A successful optionally-quoted capture is a nonempty quote-free infix. -/
theorem qtail_sound {s cap : List Char} (h : qtail s = some cap) :
    cap ≠ [] ∧ cap.all (fun c => !(isQuoteCh c)) = true ∧ cap <:+: s := by
  unfold qtail at h
  split at h
  · exact absurd h (by simp)
  · rename_i c0 rest0
    split at h
    · obtain ⟨h1, h2, h3⟩ := qcap_sound h
      exact ⟨h1, h2, infix_of_infix_tail h3.isInfix⟩
    · obtain ⟨h1, h2, h3⟩ := qcap_sound h
      exact ⟨h1, h2, h3.isInfix⟩

theorem wsThenAux_sound {k : List Char → Option (List Char)} {s r : List Char}
    (n : Nat) (h : wsThenAux k s n = some r) :
    ∃ j, 1 ≤ j ∧ k (s.drop j) = some r := by
  induction n with
  | zero => exact absurd h (by simp [wsThenAux])
  | succ n ih =>
    unfold wsThenAux at h
    split at h
    · rename_i heq
      exact ⟨n + 1, by omega, by rw [heq]; injection h; simp_all⟩
    · exact ih h

theorem wsThen_sound {k : List Char → Option (List Char)} {s r : List Char}
    (h : wsThen k s = some r) : ∃ j, 1 ≤ j ∧ k (s.drop j) = some r :=
  wsThenAux_sound _ h

/-- A successful match of the optional `for` group and the capture is a
nonempty quote-free infix. -/
theorem forTail_sound {s cap : List Char} (h : forTail s = some cap) :
    cap ≠ [] ∧ cap.all (fun c => !(isQuoteCh c)) = true ∧ cap <:+: s := by
  unfold forTail at h
  split at h
  · split at h
    · rename_i r heq
      obtain rfl : r = cap := by injection h
      obtain ⟨j, _, hk⟩ := wsThen_sound heq
      obtain ⟨h1, h2, h3⟩ := qtail_sound hk
      exact ⟨h1, h2, infix_of_infix_drop 3 (infix_of_infix_drop j h3)⟩
    · obtain ⟨h1, h2, h3⟩ := qtail_sound h
      exact ⟨h1, h2, h3⟩
  · obtain ⟨h1, h2, h3⟩ := qtail_sound h
    exact ⟨h1, h2, h3⟩

theorem queryCapAt_sound {s cap : List Char} (h : queryCapAt s = some cap) :
    cap ≠ [] ∧ cap.all (fun c => !(isQuoteCh c)) = true ∧ cap <:+: s := by
  unfold queryCapAt at h
  split at h
  · obtain ⟨j, _, hk⟩ := wsThen_sound h
    obtain ⟨h1, h2, h3⟩ := forTail_sound hk
    exact ⟨h1, h2, infix_of_infix_drop 6 (infix_of_infix_drop j h3)⟩
  · split at h
    · obtain ⟨j, _, hk⟩ := wsThen_sound h
      obtain ⟨h1, h2, h3⟩ := forTail_sound hk
      exact ⟨h1, h2, infix_of_infix_drop 4 (infix_of_infix_drop j h3)⟩
    · exact absurd h (by simp)

/-- The leftmost query match is a nonempty quote-free infix of the message. -/
theorem findQueryCap_sound {s cap : List Char} (h : findQueryCap s = some cap) :
    cap ≠ [] ∧ cap.all (fun c => !(isQuoteCh c)) = true ∧ cap <:+: s := by
  induction s with
  | nil => exact absurd h (by simp [findQueryCap])
  | cons c rest ih =>
    unfold findQueryCap at h
    split at h
    · rename_i cap0 heq
      obtain rfl : cap0 = cap := by injection h
      exact queryCapAt_sound heq
    · obtain ⟨h1, h2, h3⟩ := ih h
      exact ⟨h1, h2, infix_of_infix_tail h3⟩

/-- C9: the conversational capability.  With a configured language-model
agent, the raw message (`input.message`, falling back to
`input.description`) is forwarded to the agent and its reply wrapped — no
pattern matching.  Without one, exactly three ordered pattern checks run
against the lower-cased message: `create`+`doc` creates a document titled by
the quoted `called/named/titled "X"` capture (or `"Untitled Document"`);
otherwise `list`+`doc` lists documents; otherwise `search` searches with the
quoted-or-trailing capture after `search`/`find` (the whole message when
nothing parses); otherwise a structured failure is returned.  The last two
conjuncts certify the captures: a title capture occurs quoted in the
message, a query capture is a nonempty quote-free substring of it. -/
theorem c9_conversational_fallback :
    (∀ (tools : GoogleDocsTools) (ag : Agent) (input : TaskInput) (cap : TaskCapability),
      (GoogleWorkspaceHandler.capabilities tools (some ag)).lookup "task:chat" = some cap →
      cap.handler input
        = (ag.chat (jsOrStr input.message (jsOrStr input.description ""))).map
            (fun response => HandlerOut.chat response)) ∧
    (∀ (tools : GoogleDocsTools) (input : TaskInput) (m : String),
      m = strToLower (jsOrStr input.message (jsOrStr input.description "")) →
      ((strIncludes m "create" && strIncludes m "doc") = true →
        GoogleWorkspaceHandler.handleNaturalLanguageWithoutLLM tools input
          = tools.createDocument
              (some (match findTitleCap m.data with
                     | some cap => String.mk cap
                     | none => "Untitled Document")) none none) ∧
      ((strIncludes m "create" && strIncludes m "doc") = false →
       (strIncludes m "list" && strIncludes m "doc") = true →
        GoogleWorkspaceHandler.handleNaturalLanguageWithoutLLM tools input
          = tools.listDocuments none none none) ∧
      ((strIncludes m "create" && strIncludes m "doc") = false →
       (strIncludes m "list" && strIncludes m "doc") = false →
       strIncludes m "search" = true →
        GoogleWorkspaceHandler.handleNaturalLanguageWithoutLLM tools input
          = tools.searchDrive
              (some (match findQueryCap m.data with
                     | some cap => String.mk cap
                     | none => m)) none none) ∧
      ((strIncludes m "create" && strIncludes m "doc") = false →
       (strIncludes m "list" && strIncludes m "doc") = false →
       strIncludes m "search" = false →
        GoogleWorkspaceHandler.handleNaturalLanguageWithoutLLM tools input
          = { success := false
              error := some "Could not understand the request. Please use specific tool commands or enable LLM for natural language processing." })) ∧
    (∀ (l cap : List Char), findTitleCap l = some cap →
      cap ≠ [] ∧ ('"' :: (cap ++ ['"'])) <:+: l) ∧
    (∀ (l cap : List Char), findQueryCap l = some cap →
      cap ≠ [] ∧ cap.all (fun c => !(isQuoteCh c)) = true ∧ cap <:+: l) := by
  refine ⟨?_, ?_, fun l cap h => findTitleCap_sound h,
    fun l cap h => findQueryCap_sound h⟩
  · intro tools ag input cap hcap
    simp [GoogleWorkspaceHandler.capabilities, List.lookup] at hcap
    rw [← hcap]
  · intro tools input m hm
    subst hm
    refine ⟨?_, ?_, ?_, ?_⟩
    · intro h1
      simp only [GoogleWorkspaceHandler.handleNaturalLanguageWithoutLLM]
      rw [if_pos h1]
    · intro h1 h2
      simp only [GoogleWorkspaceHandler.handleNaturalLanguageWithoutLLM]
      rw [if_neg (by simp [h1]), if_pos h2]
    · intro h1 h2 h3
      simp only [GoogleWorkspaceHandler.handleNaturalLanguageWithoutLLM]
      rw [if_neg (by simp [h1]), if_neg (by simp [h2]), if_pos h3]
    · intro h1 h2 h3
      simp only [GoogleWorkspaceHandler.handleNaturalLanguageWithoutLLM]
      rw [if_neg (by simp [h1]), if_neg (by simp [h2]), if_neg (by simp [h3])]

/-- C9, witness: the pattern branches at concrete messages. -/
theorem c9_conversational_fallback_witness :
    GoogleWorkspaceHandler.handleNaturalLanguageWithoutLLM stubTools
      { message := some "Create a doc called \"Notes\"" }
      = stubTools.createDocument (some "notes") none none ∧
    GoogleWorkspaceHandler.handleNaturalLanguageWithoutLLM stubTools
      { message := some "please search for taxes" }
      = stubTools.searchDrive (some "taxes") none none :=
  have h1 := (c9_conversational_fallback.2.1 stubTools
    { message := some "Create a doc called \"Notes\"" } _ rfl).1 (by decide)
  have h2 := (c9_conversational_fallback.2.1 stubTools
    { message := some "please search for taxes" } _ rfl).2.2.1
    (by decide) (by decide) (by decide)
  ⟨by rw [h1]; decide, by rw [h2]; decide⟩

/-! ## C10 — service failures are values, not rejections -/

/-- C10: for every registered document capability, a failure raised by the
underlying service client is caught inside the tools layer: the capability
handler resolves (never rejects) with a `ToolResult` whose `success` is
`false`, and `handleTask` consequently reports `status = "completed"` with
the failure inside `output` and no `error` — not `failed`/`execution_error`. -/
theorem c10_tool_errors_completed :
    (∀ (e : String) (input : TaskInput) (agent : Option Agent) (key : String),
      key ∈ ["google:docs:create", "google:docs:read", "google:docs:update",
             "google:docs:append", "google:docs:list", "google:drive:search"] →
      ∃ r : ToolResult,
        ((GoogleWorkspaceHandler.capabilities (failTools e) agent).lookup key).map
          (fun cap => cap.handler input) = some (.ok (.tool r)) ∧
        r.success = false) ∧
    (∀ (e : String) (req : A2ATaskRequest) (agent : Option Agent) (i : TaskInput)
        (d T : Int) (key : String),
      req.type = some key →
      key ∈ ["google:docs:create", "google:docs:read", "google:docs:update",
             "google:docs:append", "google:docs:list", "google:drive:search"] →
      req.input = some i → req.timeout_ms = some T → 0 ≤ d → d < T →
      ((GoogleWorkspaceHandler.handleTask (failTools e) agent req (.settles d)).status
          = "completed" ∧
       (GoogleWorkspaceHandler.handleTask (failTools e) agent req (.settles d)).error
          = none ∧
       ∃ r : ToolResult,
         (GoogleWorkspaceHandler.handleTask (failTools e) agent req (.settles d)).output
            = some (.tool r) ∧ r.success = false)) := by
  constructor
  · intro e input agent key hk
    simp only [List.mem_cons, List.mem_singleton, List.not_mem_nil, or_false] at hk
    rcases hk with rfl | rfl | rfl | rfl | rfl | rfl <;>
      simp [GoogleWorkspaceHandler.capabilities, List.lookup,
        GoogleDocsTools.createDocument, GoogleDocsTools.readDocument,
        GoogleDocsTools.updateDocument, GoogleDocsTools.appendToDocument,
        GoogleDocsTools.listDocuments, GoogleDocsTools.searchDrive,
        failTools, failClient]
  · intro e req agent i d T key htype hk hinput htm hd hdT
    have hne : T ≠ 0 := by omega
    have h2 : jsOrInt req.timeout_ms 30000 = T := by simp [htm, jsOrInt, hne]
    simp only [List.mem_cons, List.mem_singleton, List.not_mem_nil, or_false] at hk
    rcases hk with rfl | rfl | rfl | rfl | rfl | rfl <;>
      refine ⟨?_, ?_, ?_⟩ <;>
        simp [GoogleWorkspaceHandler.handleTask, htype, jsOrStr, hinput, h2,
          GoogleWorkspaceHandler.capabilities, List.lookup,
          executeWithTimeout_handler _ d T hd hdT, successResponse,
          GoogleDocsTools.createDocument, GoogleDocsTools.readDocument,
          GoogleDocsTools.updateDocument, GoogleDocsTools.appendToDocument,
          GoogleDocsTools.listDocuments, GoogleDocsTools.searchDrive,
          failTools, failClient]

/-- C10, witness: a failing read reaches the caller as a completed task with
a failure value in the output. -/
theorem c10_tool_errors_completed_witness :
    (GoogleWorkspaceHandler.handleTask (failTools "boom") none
      { task_id := "t1", type := some "google:docs:read",
        input := some { document_id := some "d" }, timeout_ms := some 100 }
      (.settles 3)).status = "completed" ∧
    ∃ r : ToolResult,
      (GoogleWorkspaceHandler.handleTask (failTools "boom") none
        { task_id := "t1", type := some "google:docs:read",
          input := some { document_id := some "d" }, timeout_ms := some 100 }
        (.settles 3)).output = some (.tool r) ∧ r.success = false :=
  have h := c10_tool_errors_completed.2 "boom"
    { task_id := "t1", type := some "google:docs:read",
      input := some { document_id := some "d" }, timeout_ms := some 100 }
    none { document_id := some "d" } 3 100 "google:docs:read"
    rfl (by decide) rfl rfl (by decide) (by decide)
  ⟨h.1, h.2.2⟩

/-! ## Helper lemmas for the store and cache maps -/

@[simp] theorem Store.set_same (σ : Store) (k : String) (v : StoreVal) :
    Store.set σ k v k = some v := by simp [Store.set]

theorem Store.set_ne (σ : Store) (k : String) (v : StoreVal) {q : String} (h : q ≠ k) :
    Store.set σ k v q = σ q := by simp [Store.set, h]

@[simp] theorem Store.del_same (σ : Store) (k : String) : Store.del σ k k = none := by
  simp [Store.del]

theorem Store.del_ne (σ : Store) (k : String) {q : String} (h : q ≠ k) :
    Store.del σ k q = σ q := by simp [Store.del, h]

@[simp] theorem mset_same {α : Type} (f : String → Option α) (k : String) (v : α) :
    mset f k v k = some v := by simp [mset]

theorem mset_ne {α : Type} (f : String → Option α) (k : String) (v : α) {q : String}
    (h : q ≠ k) : mset f k v q = f q := by simp [mset, h]

@[simp] theorem mdel_same {α : Type} (f : String → Option α) (k : String) :
    mdel f k k = none := by simp [mdel]

theorem mdel_ne {α : Type} (f : String → Option α) (k : String) {q : String}
    (h : q ≠ k) : mdel f k q = f q := by simp [mdel, h]

/-- Primary-credential keys and email-index keys never collide. -/
theorem token_key_ne_email_key (a b : String) : ("token:" ++ a) ≠ ("email:" ++ b) := by
  intro h
  have h2 : ("token:" ++ a).data = ("email:" ++ b).data := by rw [h]
  rw [String.data_append, String.data_append] at h2
  have ht : "token:".data = ['t', 'o', 'k', 'e', 'n', ':'] := rfl
  have he : "email:".data = ['e', 'm', 'a', 'i', 'l', ':'] := rfl
  rw [ht, he] at h2
  simp at h2

theorem email_key_ne_token_key (a b : String) : ("email:" ++ a) ≠ ("token:" ++ b) :=
  fun h => token_key_ne_email_key b a h.symm

/-! ## C2 — missing refresh token fails atomically -/

/-- C2: when the code exchange yields no refresh token (absent, or the empty
falsy string), `handleCallback` fails with the MissingRefreshToken error and
persists nothing: the manager state — store included — is exactly the input
state, so in particular neither the `token:<userId>` key nor the
`email:<email>` key exists afterwards when it did not exist before.  The
factory's `handleOAuthCallback` propagates the failure with its cache also
untouched. -/
theorem c2_missing_refresh_atomic (tokens : TokenExchange) (ui : UserInfoResp) (now : Int)
    (hrt : tokens.refresh_token = none ∨ tokens.refresh_token = some "") :
    (∀ m : GoogleAuthManager,
      (m.handleCallback tokens ui now).1
        = .error "No refresh token received. User may need to revoke access and re-authorize." ∧
      (m.handleCallback tokens ui now).2 = m ∧
      (∀ userId, m.store ("token:" ++ userId) = none →
        (m.handleCallback tokens ui now).2.store ("token:" ++ userId) = none) ∧
      (∀ email, m.store ("email:" ++ email) = none →
        (m.handleCallback tokens ui now).2.store ("email:" ++ email) = none) ∧
      (∀ userId, m.store ("token:" ++ userId) = none →
        ((m.handleCallback tokens ui now).2.hasUser userId) = false)) ∧
    (∀ f : GoogleClientFactory,
      (f.handleOAuthCallback tokens ui now).1
        = .error "No refresh token received. User may need to revoke access and re-authorize." ∧
      (f.handleOAuthCallback tokens ui now).2 = f) := by
  have hc : jsOrStr tokens.refresh_token "" = "" := by
    rcases hrt with h | h <;> simp [h, jsOrStr]
  constructor
  · intro m
    refine ⟨?_, ?_, ?_, ?_, ?_⟩ <;>
      simp [GoogleAuthManager.handleCallback, GoogleAuthManager.hasUser, hc]
  · intro f
    constructor <;>
      simp [GoogleClientFactory.handleOAuthCallback, GoogleAuthManager.handleCallback, hc]

/-- An empty credential-manager state. -/
def emptyAuth : GoogleAuthManager :=
  { store := Store.empty, clientCache := fun _ => none, nextClientId := 0 }

def emptyFactory : GoogleClientFactory :=
  { authManager := emptyAuth, clientCache := fun _ => none, nextClientId := 0 }

/-- C2, witness: a refresh-token-free exchange against the empty state. -/
theorem c2_missing_refresh_atomic_witness :
    (emptyAuth.handleCallback { access_token := some "at" } { id := some "u1", email := some "a@x.com" } 0).1
      = .error "No refresh token received. User may need to revoke access and re-authorize." ∧
    (emptyAuth.handleCallback { access_token := some "at" } { id := some "u1", email := some "a@x.com" } 0).2.hasUser "u1" = false ∧
    (emptyFactory.handleOAuthCallback { access_token := some "at" } { id := some "u1", email := some "a@x.com" } 0).2 = emptyFactory :=
  have h := c2_missing_refresh_atomic { access_token := some "at" }
    { id := some "u1", email := some "a@x.com" } 0 (Or.inl rfl)
  ⟨(h.1 emptyAuth).1, (h.1 emptyAuth).2.2.2.2 "u1" rfl, (h.2 emptyFactory).2⟩

/-! ## C5 — removeUser deletes both keys, evicts caches, and is idempotent -/

/-- C5: `removeUser` deletes the primary credential key and the email index
entry named by the credential being deleted, evicts the cached handle at
both the factory and the auth-manager layer, and is idempotent: removing a
user with no stored credential leaves every store key unchanged (and is not
an error — the operation is total), and removing twice equals removing
once on the store. -/
theorem c5_removeUser_correct (f : GoogleClientFactory) (userId : String) :
    ((f.removeUser userId).authManager.store ("token:" ++ userId) = none) ∧
    (∀ tok, f.authManager.getToken userId = some tok →
      (f.removeUser userId).authManager.store ("email:" ++ tok.email) = none) ∧
    ((f.removeUser userId).clientCache userId = none) ∧
    ((f.removeUser userId).authManager.clientCache userId = none) ∧
    (f.authManager.store ("token:" ++ userId) = none →
      ∀ k, (f.removeUser userId).authManager.store k = f.authManager.store k) ∧
    (∀ k, ((f.removeUser userId).removeUser userId).authManager.store k
      = (f.removeUser userId).authManager.store k) := by
  refine ⟨?_, ?_, ?_, ?_, ?_, ?_⟩
  · simp [GoogleClientFactory.removeUser, GoogleAuthManager.removeUser]
  · intro tok htok
    simp only [GoogleClientFactory.removeUser, GoogleAuthManager.removeUser, htok]
    rw [Store.del_ne _ _ (email_key_ne_token_key tok.email userId)]
    simp
  · simp [GoogleClientFactory.removeUser]
  · simp [GoogleClientFactory.removeUser, GoogleAuthManager.removeUser]
  · intro hnone k
    have htok : f.authManager.getToken userId = none := by
      simp [GoogleAuthManager.getToken, hnone]
    simp only [GoogleClientFactory.removeUser, GoogleAuthManager.removeUser, htok]
    by_cases hk : k = "token:" ++ userId
    · subst hk
      simp [hnone]
    · rw [Store.del_ne _ _ hk]
  · intro k
    have hnone : (f.removeUser userId).authManager.store ("token:" ++ userId) = none := by
      simp [GoogleClientFactory.removeUser, GoogleAuthManager.removeUser]
    generalize hg : f.removeUser userId = g at hnone ⊢
    have htok : g.authManager.getToken userId = none := by
      simp [GoogleAuthManager.getToken, hnone]
    simp only [GoogleClientFactory.removeUser, GoogleAuthManager.removeUser, htok]
    by_cases hk : k = "token:" ++ userId
    · subst hk
      simp [hnone]
    · rw [Store.del_ne _ _ hk]

/-- A credential as stored for the scenario user. -/
def sampleToken : UserToken :=
  { userId := "u1", email := "a@x.com", accessToken := "at", refreshToken := "rt"
    expiresAt := none, scopes := GOOGLE_SCOPES, createdAt := 0, updatedAt := 0 }

/-- A state holding exactly the scenario user `u1` / `a@x.com`. -/
def seededAuth : GoogleAuthManager :=
  { store := Store.set (Store.set Store.empty "token:u1" (.t sampleToken)) "email:a@x.com" (.s "u1")
    clientCache := fun _ => none
    nextClientId := 0 }

def seededFactory : GoogleClientFactory :=
  { authManager := seededAuth, clientCache := fun _ => none, nextClientId := 0 }

/-- C5, witness: removing the seeded user deletes both keys and the caches;
removing an absent user changes nothing. -/
theorem c5_removeUser_correct_witness :
    ((seededFactory.removeUser "u1").authManager.store "token:u1" = none) ∧
    ((seededFactory.removeUser "u1").authManager.store "email:a@x.com" = none) ∧
    ((seededFactory.removeUser "u1").clientCache "u1" = none) ∧
    ((seededFactory.removeUser "zz").authManager.store "token:u1"
      = seededFactory.authManager.store "token:u1") :=
  have h := c5_removeUser_correct seededFactory "u1"
  have h2 := c5_removeUser_correct seededFactory "zz"
  ⟨h.1, h.2.1 sampleToken rfl, h.2.2.1, h2.2.2.2.2.1 rfl "token:u1"⟩

/-! ## C4 — the factory cache and the two lookup paths -/

/-- A `getClientForUser` that returns `none` leaves the manager unchanged. -/
theorem auth_getClientForUser_none (m : GoogleAuthManager) (userId : String)
    (h : (m.getClientForUser userId).1 = none) :
    m.getClientForUser userId = (none, m) := by
  rcases hcc : m.clientCache userId with _ | c
  · rcases htk : m.getToken userId with _ | tok
    · simp [GoogleAuthManager.getClientForUser, hcc, htk]
    · simp [GoogleAuthManager.getClientForUser, hcc, htk] at h
  · simp [GoogleAuthManager.getClientForUser, hcc] at h

/-- C4, counterexample: after `getClientForUser "u1"` has populated the
factory cache, `getClientForEmail` for the same user's email does *not*
return the cached client — it returns a different, freshly constructed one
(and it does return one, so the disagreement is not vacuous). -/
theorem c4_counterexample :
    ((seededFactory.getClientForUser "u1").2.clientCache "u1"
      = (seededFactory.getClientForUser "u1").1) ∧
    (((seededFactory.getClientForUser "u1").2.getClientForEmail "a@x.com").1
      ≠ (seededFactory.getClientForUser "u1").2.clientCache "u1") ∧
    ((((seededFactory.getClientForUser "u1").2.getClientForEmail "a@x.com").1).isSome
      = true) := by
  decide

/-- C4, amended: the factory caches by `userId` only and repeated
`getClientForUser` lookups return the cached client with the state
unchanged; but `getClientForEmail` never consults or populates the factory
cache (every factory cache entry is untouched by it), constructs a freshly
numbered service client on every successful call, and resolves the email
through the index first — an unknown email yields `none`. -/
theorem c4_amended_cache_by_userid :
    (∀ (f : GoogleClientFactory) (userId : String),
      ((f.getClientForUser userId).2.getClientForUser userId).1
        = (f.getClientForUser userId).1 ∧
      ((f.getClientForUser userId).2.getClientForUser userId).2
        = (f.getClientForUser userId).2) ∧
    (∀ (f : GoogleClientFactory) (email u : String),
      (f.getClientForEmail email).2.clientCache u = f.clientCache u) ∧
    (∀ (f : GoogleClientFactory) (email : String) (c : ClientHandle)
        (f2 : GoogleClientFactory),
      f.getClientForEmail email = (some c, f2) → c.id = f.nextClientId) ∧
    (∀ (f : GoogleClientFactory) (email : String),
      f.authManager.getUserIdByEmail email = none →
      (f.getClientForEmail email).1 = none) := by
  refine ⟨?_, ?_, ?_, ?_⟩
  · intro f userId
    rcases hc : f.clientCache userId with _ | c
    · rcases ha : f.authManager.getClientForUser userId with ⟨oc, ast⟩
      cases oc with
      | none =>
        have he := auth_getClientForUser_none f.authManager userId (by rw [ha])
        rw [ha] at he
        obtain rfl : ast = f.authManager := by
          simpa using congrArg Prod.snd he
        constructor <;> simp [GoogleClientFactory.getClientForUser, hc, ha]
      | some a =>
        constructor <;> simp [GoogleClientFactory.getClientForUser, hc, ha]
    · constructor <;> simp [GoogleClientFactory.getClientForUser, hc]
  · intro f email u
    rcases ha : f.authManager.getClientForEmail email with ⟨oc, ast⟩
    cases oc <;> simp [GoogleClientFactory.getClientForEmail, ha]
  · intro f email c f2 h
    rcases ha : f.authManager.getClientForEmail email with ⟨oc, ast⟩
    cases oc with
    | none => simp [GoogleClientFactory.getClientForEmail, ha] at h
    | some a =>
      simp only [GoogleClientFactory.getClientForEmail, ha] at h
      have hfst := congrArg Prod.fst h
      simp at hfst
      rw [← hfst]
  · intro f email h
    simp [GoogleClientFactory.getClientForEmail, GoogleAuthManager.getClientForEmail, h]

/-- C4, witness for the amended theorem at the seeded state. -/
theorem c4_amended_cache_by_userid_witness :
    (((seededFactory.getClientForUser "u1").2.getClientForUser "u1").1
      = (seededFactory.getClientForUser "u1").1) ∧
    ((seededFactory.getClientForEmail "a@x.com").2.clientCache "u1"
      = seededFactory.clientCache "u1") ∧
    ({ id := 0, auth := { id := 0, accessToken := "at", refreshToken := "rt", expiryDate := none } } : ClientHandle).id
      = seededFactory.nextClientId ∧
    ((emptyFactory.getClientForEmail "b@x.com").1 = none) :=
  ⟨(c4_amended_cache_by_userid.1 seededFactory "u1").1,
   c4_amended_cache_by_userid.2.1 seededFactory "a@x.com" "u1",
   c4_amended_cache_by_userid.2.2.1 seededFactory "a@x.com" _ _
     (Prod.ext_iff.mpr ⟨by decide, rfl⟩),
   c4_amended_cache_by_userid.2.2.2 emptyFactory "b@x.com" rfl⟩

/-! ## C6 — removal, then re-authorization of the same identity -/

/-- A code exchange that does carry a refresh token always succeeds: the
callback returns the constructed credential and persists it. -/
theorem handleCallback_ok (m : GoogleAuthManager) (tokens : TokenExchange)
    (ui : UserInfoResp) (now : Int) (rt : String)
    (hrt : tokens.refresh_token = some rt) (hne : rt ≠ "") :
    ∃ tok : UserToken, m.handleCallback tokens ui now = (.ok tok, m.storeToken tok) ∧
      tok.userId = jsOrStr ui.id "" ∧ tok.accessToken = jsOrStr tokens.access_token "" ∧
      tok.refreshToken = rt ∧ tok.email = jsOrStr ui.email "" := by
  have hrt2 : jsOrStr tokens.refresh_token "" = rt := by simp [hrt, jsOrStr, hne]
  have hmain : m.handleCallback tokens ui now
      = (.ok { userId := jsOrStr ui.id ""
               email := jsOrStr ui.email ""
               accessToken := jsOrStr tokens.access_token ""
               refreshToken := rt
               expiresAt := match tokens.expiry_date with
                 | some e => if e = 0 then none else some e
                 | none => none
               scopes := GOOGLE_SCOPES
               createdAt := now
               updatedAt := now },
         m.storeToken { userId := jsOrStr ui.id ""
                        email := jsOrStr ui.email ""
                        accessToken := jsOrStr tokens.access_token ""
                        refreshToken := rt
                        expiresAt := match tokens.expiry_date with
                          | some e => if e = 0 then none else some e
                          | none => none
                        scopes := GOOGLE_SCOPES
                        createdAt := now
                        updatedAt := now }) := by
    simp only [GoogleAuthManager.handleCallback, hrt2]
    rw [if_neg hne]
  exact ⟨_, hmain, rfl, rfl, rfl, rfl⟩

/-- C6: after `removeUser u`, `getClientForUser u` returns absent, and
`hasUser u` / `hasUserByEmail` of the removed credential's email are both
false; a subsequent `completeAuthorization` for the same external identity
(a code exchange carrying a refresh token, user-info resolving to the same
id) succeeds, and a fresh `getClientForUser u` then returns a newly
constructed handle — its identity is the factory's fresh construction
counter, not any cached object. -/
theorem c6_remove_then_reauthorize :
    (∀ (f : GoogleClientFactory) (userId : String),
      ((f.removeUser userId).getClientForUser userId).1 = none) ∧
    (∀ (f : GoogleClientFactory) (userId : String) (tok : UserToken),
      f.authManager.getToken userId = some tok →
      ((f.removeUser userId).hasUser userId = false ∧
       (f.removeUser userId).hasUserByEmail tok.email = false)) ∧
    (∀ (f : GoogleClientFactory) (userId : String) (tokens : TokenExchange)
        (ui : UserInfoResp) (now : Int) (rt : String),
      tokens.refresh_token = some rt → rt ≠ "" → ui.id = some userId → userId ≠ "" →
      ∃ tok f2, (f.removeUser userId).handleOAuthCallback tokens ui now = (.ok tok, f2) ∧
        tok.userId = userId ∧
        f2.clientCache userId = none ∧
        (f2.getClientForUser userId).1
          = some { id := f2.nextClientId
                   auth := { id := f2.authManager.nextClientId
                             accessToken := tok.accessToken
                             refreshToken := tok.refreshToken
                             expiryDate := tok.expiresAt } }) := by
  refine ⟨?_, ?_, ?_⟩
  · intro f userId
    simp [GoogleClientFactory.removeUser, GoogleClientFactory.getClientForUser,
      GoogleAuthManager.removeUser, GoogleAuthManager.getClientForUser,
      GoogleAuthManager.getToken]
  · intro f userId tok htok
    constructor
    · simp [GoogleClientFactory.removeUser, GoogleClientFactory.hasUser,
        GoogleAuthManager.removeUser, GoogleAuthManager.hasUser]
    · simp only [GoogleClientFactory.removeUser, GoogleClientFactory.hasUserByEmail,
        GoogleAuthManager.removeUser, GoogleAuthManager.hasUserByEmail,
        GoogleAuthManager.getUserIdByEmail, htok]
      rw [Store.del_ne _ _ (email_key_ne_token_key tok.email userId)]
      simp
  · intro f userId tokens ui now rt hrt hne hui huid
    obtain ⟨tok, hcb, htuid, -, -, -⟩ :=
      handleCallback_ok (f.removeUser userId).authManager tokens ui now rt hrt hne
    have htuid2 : tok.userId = userId := by
      rw [htuid, hui]
      simp [jsOrStr, huid]
    refine ⟨tok,
      { authManager := (f.removeUser userId).authManager.storeToken tok
        clientCache := mdel (f.removeUser userId).clientCache tok.userId
        nextClientId := (f.removeUser userId).nextClientId }, ?_, htuid2, ?_, ?_⟩
    · simp only [GoogleClientFactory.handleOAuthCallback, hcb]
    · simp [htuid2]
    · simp only [GoogleClientFactory.getClientForUser, GoogleAuthManager.getClientForUser,
        GoogleAuthManager.storeToken, GoogleAuthManager.getToken, htuid2, mdel_same,
        GoogleClientFactory.removeUser, GoogleAuthManager.removeUser]
      rw [Store.set_ne _ _ _ (token_key_ne_email_key userId tok.email)]
      simp [htuid2]

/-- C6, witness: the scenario at the seeded state (`u1` / `a@x.com`). -/
theorem c6_remove_then_reauthorize_witness :
    ((seededFactory.removeUser "u1").getClientForUser "u1").1 = none ∧
    (seededFactory.removeUser "u1").hasUser "u1" = false ∧
    (seededFactory.removeUser "u1").hasUserByEmail "a@x.com" = false ∧
    (∃ tok f2, (seededFactory.removeUser "u1").handleOAuthCallback
        { access_token := some "at2", refresh_token := some "rt2" }
        { id := some "u1", email := some "a@x.com" } 5 = (.ok tok, f2) ∧
      tok.userId = "u1" ∧ f2.clientCache "u1" = none ∧
      (f2.getClientForUser "u1").1
        = some { id := f2.nextClientId
                 auth := { id := f2.authManager.nextClientId
                           accessToken := tok.accessToken
                           refreshToken := tok.refreshToken
                           expiryDate := tok.expiresAt } }) :=
  have h := c6_remove_then_reauthorize
  ⟨h.1 seededFactory "u1",
   (h.2.1 seededFactory "u1" sampleToken rfl).1,
   (h.2.1 seededFactory "u1" sampleToken rfl).2,
   h.2.2 seededFactory "u1" { access_token := some "at2", refresh_token := some "rt2" }
     { id := some "u1", email := some "a@x.com" } 5 "rt2" rfl (by decide) rfl (by decide)⟩
